import Mathlib

/-!
Verification of the resource-website-backend core: the field-search model
(`Search` / `NullableSearch`), the access-grant data model and its CRUD
operations, and the permission gate guarding the question handlers.

The Rust source's MySQL database is embedded as an explicit state record
(`Database`); each Diesel query becomes a pure function over that state,
threaded explicitly where the source mutates the store.  Fallible
operations return `Except Error`.  `u64` / `u32` column values are
modelled as `Nat` (the source only ever compares them for equality).
-/

namespace ResourceBackend

/-- Error kinds of `crate::errors::ErrorKind`.  The CRUD kinds (`Url`,
`Body`, `NotFound`, `Database`) appear in the sources under `src/`; the
authorization kinds are the spec's `AuthError` outcomes. -/
inductive ErrorKind where
  | Url
  | Body
  | NotFound
  | Database
  | Unauthenticated
  | Forbidden
  | UnknownCapability
  | InsufficientLevel
deriving DecidableEq, Repr

/-- The `crate::errors::Error` carried on every failure path. -/
structure Error where
  kind : ErrorKind
deriving DecidableEq, Repr

/-- `Error::new(kind)`. -/
def Error.new (kind : ErrorKind) : Error := ⟨kind⟩

/-- The three-state per-field search term `crate::search::Search<T>`. -/
inductive Search (α : Type) where
  | NoSearch
  | Exact (value : α)
  | Partial (value : α)
deriving DecidableEq, Repr

/-- The five-state per-field search term `crate::search::NullableSearch<T>`;
`Some` filters for non-null, `None` for null (the names used by the
source's match arms). -/
inductive NullableSearch (α : Type) where
  | NoSearch
  | Exact (value : α)
  | Partial (value : α)
  | Some
  | None
deriving DecidableEq, Repr

/-- Row of the `users` table (`users::models::User`). -/
structure User where
  id : Nat
  first_name : String
  last_name : String
  banner_id : Nat
  email : Option String
deriving DecidableEq, Repr

/-- Row of the `access` table: a named capability (spec layout
`access(id PK, name, permission_level nullable)`). -/
structure Access where
  id : Nat
  access_name : String
  permission_level : Option String
deriving DecidableEq, Repr

/-- Row of the `user_access` table: a grant (spec layout
`user_access(permission_id PK, user_id, access_id, permission_level
nullable)`). -/
structure UserAccess where
  permission_id : Nat
  user_id : Nat
  access_id : Nat
  permission_level : Option String
deriving DecidableEq, Repr

/-- Insertable grant without its generated key
(`access::models::NewUserAccess`). -/
structure NewUserAccess where
  user_id : Nat
  access_id : Nat
  permission_level : Option String
deriving DecidableEq, Repr

/-- Row of the `questions` table (`tests::questions::models::Question`). -/
structure Question where
  id : Nat
  category_id : Nat
  title : String
  correct_answer : String
  incorrect_answer_1 : String
  incorrect_answer_2 : String
  incorrect_answer_3 : String
deriving DecidableEq, Repr

/-- Insertable question without its generated key
(`tests::questions::models::NewQuestion`). -/
structure NewQuestion where
  title : String
  category_id : Nat
  correct_answer : String
  incorrect_answer_1 : String
  incorrect_answer_2 : String
  incorrect_answer_3 : String
deriving DecidableEq, Repr

/-- The MySQL store the handlers run against, as an explicit state: the
row lists of the tables the claims touch, plus the auto-increment
counters behind `LAST_INSERT_ID()`. -/
structure Database where
  users : List User
  accesses : List Access
  user_access : List UserAccess
  questions : List Question
  next_permission_id : Nat
  next_question_id : Nat
deriving DecidableEq, Repr

/-- SQL `LIKE '%pat%'` as used by the partial-search arms: substring
containment on the column text (wildcard characters inside `pat` and
collation-dependent case folding are not modelled; no claim depends on
them). -/
def likeContains (hay pat : String) : Bool :=
  decide (pat.data <:+: hay.data)

/-- `access::requests::check_user_access`: count the `user_access` rows
matching both the `user_id` and the `access_id` filter, and return
whether the count is non-zero.  A pure read: the database state is not
threaded back. -/
def check_user_access (user_id access_id : Nat) (db : Database) :
    Except Error Bool :=
  let found_user_accesses :=
    ((db.user_access.filter (fun ua => ua.user_id = user_id)).filter
      (fun ua => ua.access_id = access_id)).length
  if found_user_accesses ≠ 0 then .ok true else .ok false

/-- `access::requests::create_user_access`: the read-then-write duplicate
guard, then the insert (keyed by the auto-increment counter) followed by
the re-read of `LAST_INSERT_ID()` whose result list is `pop`ped. -/
def create_user_access (user_access : NewUserAccess) (db : Database) :
    Except Error UserAccess × Database :=
  let found_user_accesses :=
    ((db.user_access.filter (fun r => r.user_id = user_access.user_id)).filter
      (fun r => r.access_id = user_access.access_id)).length
  if found_user_accesses ≠ 0 then
    (.error (Error.new .Database), db)
  else
    let inserted : UserAccess :=
      { permission_id := db.next_permission_id
        user_id := user_access.user_id
        access_id := user_access.access_id
        permission_level := user_access.permission_level }
    let db2 : Database :=
      { db with
        user_access := db.user_access ++ [inserted]
        next_permission_id := db.next_permission_id + 1 }
    match (db2.user_access.filter
        (fun r => r.permission_id = db.next_permission_id)).getLast? with
    | some inserted_access => (.ok inserted_access, db2)
    | none => (.error (Error.new .Database), db2)

/-- Partial update payload for a grant (`access::models::PartialUserAccess`):
every column optional, applied only where present. -/
structure PartialUserAccess where
  user_id : Option Nat
  access_id : Option Nat
  permission_level : Option (Option String)
deriving DecidableEq, Repr

/-- Apply an `AsChangeset` partial grant to a row: each present field
overwrites the column. -/
def applyPartialUserAccess (p : PartialUserAccess) (r : UserAccess) :
    UserAccess :=
  { r with
    user_id := p.user_id.getD r.user_id
    access_id := p.access_id.getD r.access_id
    permission_level := p.permission_level.getD r.permission_level }

/-- `access::requests::update_user_access`: `UPDATE ... WHERE
permission_id = id`; rows not matching the filter are untouched, and the
statement succeeds whether or not any row matched. -/
def update_user_access (id : Nat) (user_access : PartialUserAccess)
    (db : Database) : Except Error Unit × Database :=
  (.ok (),
    { db with
      user_access := db.user_access.map
        (fun r => if r.permission_id = id
          then applyPartialUserAccess user_access r else r) })

/-- `access::requests::delete_user_access`: `DELETE ... WHERE
permission_id = id`, always `Ok(())`. -/
def delete_user_access (id : Nat) (db : Database) :
    Except Error Unit × Database :=
  (.ok (),
    { db with
      user_access := db.user_access.filter
        (fun r => ¬ r.permission_id = id) })

/-- Partial update payload for an access (`access::models::PartialAccess`):
every column optional, applied only where present. -/
structure PartialAccess where
  access_name : Option String
  permission_level : Option (Option String)
deriving DecidableEq, Repr

/-- Apply an `AsChangeset` partial access to a row. -/
def applyPartialAccess (p : PartialAccess) (r : Access) : Access :=
  { r with
    access_name := p.access_name.getD r.access_name
    permission_level := p.permission_level.getD r.permission_level }

/-- `access::requests::update_access`: `UPDATE access ... WHERE id = id`,
always `Ok(())`. -/
def update_access (id : Nat) (access : PartialAccess) (db : Database) :
    Except Error Unit × Database :=
  (.ok (),
    { db with
      accesses := db.accesses.map
        (fun r => if r.id = id then applyPartialAccess access r else r) })

/-- Partial update payload for a user (`users::models::PartialUser`). -/
structure PartialUser where
  first_name : Option String
  last_name : Option String
  banner_id : Option Nat
  email : Option (Option String)
deriving DecidableEq, Repr

/-- Apply an `AsChangeset` partial user to a row. -/
def applyPartialUser (p : PartialUser) (r : User) : User :=
  { r with
    first_name := p.first_name.getD r.first_name
    last_name := p.last_name.getD r.last_name
    banner_id := p.banner_id.getD r.banner_id
    email := p.email.getD r.email }

/-- `users::requests::update_user`: `UPDATE users ... WHERE id = id`,
always `Ok(())`. -/
def update_user (id : Nat) (user : PartialUser) (db : Database) :
    Except Error Unit × Database :=
  (.ok (),
    { db with
      users := db.users.map
        (fun r => if r.id = id then applyPartialUser user r else r) })

/-- Search criteria for the users listing (`users::models::SearchUser`). -/
structure SearchUser where
  first_name : Search String
  last_name : Search String
  banner_id : Search Nat
  email : NullableSearch String
deriving DecidableEq, Repr

/-- `users::models::UserList`. -/
structure UserList where
  users : List User
deriving DecidableEq, Repr

/-- The `warn!` message the source logs when a partial search hits the
integer `banner_id` column. -/
def bannerIdPartialWarning : String :=
  "Trying to partial search by banner id. This is not currently supported, so performing exact search instead"

/-- `users::requests::search_users`: start from the bare `users` table and
conjoin one predicate per non-`NoSearch` field, in the source's field
order.  Alongside the result list we return the `warn!`-level diagnostics
emitted while compiling the criteria (the `trace!` line accompanying the
banner-id degradation is debug-level and not modelled). -/
def search_users (user : SearchUser) (db : Database) :
    (Except Error UserList) × List String :=
  let q0 := db.users
  let q1 := match user.first_name with
    | .Partial s => q0.filter (fun u => likeContains u.first_name s)
    | .Exact s => q0.filter (fun u => u.first_name = s)
    | .NoSearch => q0
  let q2 := match user.last_name with
    | .Partial s => q1.filter (fun u => likeContains u.last_name s)
    | .Exact s => q1.filter (fun u => u.last_name = s)
    | .NoSearch => q1
  let warnings := match user.banner_id with
    | .Partial _ => [bannerIdPartialWarning]
    | _ => []
  let q3 := match user.banner_id with
    | .Partial s => q2.filter (fun u => u.banner_id = s)
    | .Exact s => q2.filter (fun u => u.banner_id = s)
    | .NoSearch => q2
  let q4 := match user.email with
    | .Partial s => q3.filter (fun u => match u.email with
        | some e => likeContains e s
        | none => false)
    | .Exact s => q3.filter (fun u => u.email = some s)
    | .Some => q3.filter (fun u => u.email.isSome)
    | .None => q3.filter (fun u => u.email.isNone)
    | .NoSearch => q3
  (.ok { users := q4 }, warnings)

/-- Search criteria for the grant listing
(`access::models::SearchUserAccess`), with the three fields the source's
`search_user_access` matches on. -/
structure SearchUserAccess where
  access_id : Search Nat
  user_id : Search Nat
  permission_level : NullableSearch String
deriving DecidableEq, Repr

/-- One row of the joined grant listing
(`access::models::JoinedUserAccess`): the source selects
`(user_access.permission_id, users.id, access.id, users.first_name,
users.last_name, users.banner_id)`. -/
structure JoinedUserAccess where
  permission_id : Nat
  user_id : Nat
  access_id : Nat
  first_name : String
  last_name : String
  banner_id : Nat
deriving DecidableEq, Repr

/-- `access::models::JoinedUserAccessList`. -/
structure JoinedUserAccessList where
  entries : List JoinedUserAccess
deriving DecidableEq, Repr

/-- The rows of the inner join `user_access ⋈ access ⋈ users` before the
projection: filters in the boxed query range over the whole joined row,
so the join is kept as triples until the final `load`. -/
def joinedRows (db : Database) : List (UserAccess × Access × User) :=
  db.user_access.flatMap (fun ua =>
    (db.accesses.filter (fun a => a.id = ua.access_id)).flatMap (fun a =>
      (db.users.filter (fun u => u.id = ua.user_id)).map (fun u =>
        (ua, a, u))))

/-- The `select` projection of `search_user_access` applied to one joined
row. -/
def projectJoined (t : UserAccess × Access × User) : JoinedUserAccess :=
  { permission_id := t.1.permission_id
    user_id := t.2.2.id
    access_id := t.2.1.id
    first_name := t.2.2.first_name
    last_name := t.2.2.last_name
    banner_id := t.2.2.banner_id }

/-- The base query of `search_user_access` with no filter applied: the
projected join. -/
def joinedUserAccessBase (db : Database) : List JoinedUserAccess :=
  (joinedRows db).map projectJoined

/-- `access::requests::search_user_access`: the joined base query with one
predicate conjoined per non-`NoSearch` field, in the source's order
(`access_id`, `user_id`, `permission_level`).  The `Partial` arms of the
two integer fields fall through to equality filters with no log
statement, so the diagnostics component is always empty. -/
def search_user_access (user_access_search : SearchUserAccess)
    (db : Database) : (Except Error JoinedUserAccessList) × List String :=
  let q0 : List (UserAccess × Access × User) := joinedRows db
  let q1 : List (UserAccess × Access × User) :=
    match user_access_search.access_id with
    | .Partial s => q0.filter (fun t => t.1.access_id = s)
    | .Exact s => q0.filter (fun t => t.1.access_id = s)
    | .NoSearch => q0
  let q2 : List (UserAccess × Access × User) :=
    match user_access_search.user_id with
    | .Partial s => q1.filter (fun t => t.1.user_id = s)
    | .Exact s => q1.filter (fun t => t.1.user_id = s)
    | .NoSearch => q1
  let q3 : List (UserAccess × Access × User) :=
    match user_access_search.permission_level with
    | .Partial s => q2.filter (fun t => match t.1.permission_level with
        | some pl => likeContains pl s
        | none => false)
    | .Exact s => q2.filter (fun t => t.1.permission_level = some s)
    | .Some => q2.filter (fun t => t.1.permission_level.isSome)
    | .None => q2.filter (fun t => t.1.permission_level.isNone)
    | .NoSearch => q2
  (.ok { entries := q3.map projectJoined }, [])

/-- Whether a query value starts with the given tag (character-level
`starts_with`). -/
def strHasTag (tag raw : String) : Bool :=
  decide (tag.data <+: raw.data)

/-- Drop the first `n` characters of a query value, exposing the payload
behind its tag. -/
def strDropChars (raw : String) (n : Nat) : String :=
  String.mk (raw.data.drop n)

/-- Modelled from the spec: the body of `crate::search::Search::from_query`
is not among the sources under `src/` (only its callers are).  Following
the spec's grammar, a query value is a prefix tag followed by a payload:
`exact:` yields `Exact` and `partial:` yields `Partial`, with the payload
parsed as `T`; an unrecognized prefix, or a payload that fails to parse
as `T`, fails with `ErrorKind::Url`. -/
def searchFromQuery {α : Type} (parseT : String → Option α) (raw : String) :
    Except Error (Search α) :=
  if strHasTag "exact:" raw then
    match parseT (strDropChars raw 6) with
    | some v => .ok (.Exact v)
    | none => .error (Error.new .Url)
  else if strHasTag "partial:" raw then
    match parseT (strDropChars raw 8) with
    | some v => .ok (.Partial v)
    | none => .error (Error.new .Url)
  else
    .error (Error.new .Url)

/-- Modelled from the spec: the body of
`crate::search::NullableSearch::from_query` is not among the sources
under `src/`.  The grammar extends `searchFromQuery` with the payloadless
tags `null` (is-null) and `notnull` (is-not-null). -/
def nullableSearchFromQuery {α : Type} (parseT : String → Option α)
    (raw : String) : Except Error (NullableSearch α) :=
  if strHasTag "exact:" raw then
    match parseT (strDropChars raw 6) with
    | some v => .ok (.Exact v)
    | none => .error (Error.new .Url)
  else if strHasTag "partial:" raw then
    match parseT (strDropChars raw 8) with
    | some v => .ok (.Partial v)
    | none => .error (Error.new .Url)
  else if raw = "null" then .ok .None
  else if raw = "notnull" then .ok .Some
  else .error (Error.new .Url)

/-- Payload parser for text columns: every string is a valid `String`. -/
def parseString (s : String) : Option String := some s

/-- Decimal value of a digit string. -/
def decimalValue (cs : List Char) : Nat :=
  cs.foldl (fun acc c => acc * 10 + (c.toNat - 48)) 0

/-- Payload parser for the `u32` column `banner_id`: one or more decimal
digits whose value fits in a `u32`. -/
def parseU32 (s : String) : Option Nat :=
  if s.data ≠ [] ∧ s.data.all (fun c => c.isDigit) then
    if decimalValue s.data < 2 ^ 32 then some (decimalValue s.data) else none
  else none

/-- The query-parameter loop of `users::requests::handle_user`
(`GET` with empty path): each recognized field name replaces its
entry in the accumulated criteria record with the parsed term, the first
unrecognized field name aborts with `ErrorKind::Url`, and a `from_query`
failure aborts with that failure. -/
def parseSearchUserLoop :
    List (String × String) → SearchUser → Except Error SearchUser
  | [], acc => .ok acc
  | (field, q) :: rest, acc =>
    if field = "first_name" then
      match searchFromQuery parseString q with
      | .ok t => parseSearchUserLoop rest { acc with first_name := t }
      | .error e => .error e
    else if field = "last_name" then
      match searchFromQuery parseString q with
      | .ok t => parseSearchUserLoop rest { acc with last_name := t }
      | .error e => .error e
    else if field = "banner_id" then
      match searchFromQuery parseU32 q with
      | .ok t => parseSearchUserLoop rest { acc with banner_id := t }
      | .error e => .error e
    else if field = "email" then
      match nullableSearchFromQuery parseString q with
      | .ok t => parseSearchUserLoop rest { acc with email := t }
      | .error e => .error e
    else
      .error (Error.new .Url)

/-- Parse the user-search query set, starting from the all-`NoSearch`
accumulator as `handle_user` does. -/
def parseSearchUser (query : List (String × String)) :
    Except Error SearchUser :=
  parseSearchUserLoop query
    { first_name := .NoSearch
      last_name := .NoSearch
      banner_id := .NoSearch
      email := .NoSearch }

/-- The `GET /users` branch of `users::requests::handle_user`: parse the
query set, then run `search_users`; a parse failure reaches no search
(and produces no diagnostics). -/
def handle_user_search (query : List (String × String)) (db : Database) :
    (Except Error UserList) × List String :=
  match parseSearchUser query with
  | .error e => (.error e, [])
  | .ok su => search_users su db

/-- Modelled from the spec: the body of
`access::requests::check_to_run` is not among the sources under `src/`
(only its import and call sites in the question handler are).  Following
the spec's algorithm: an absent requesting user fails with
`Unauthenticated`; an unknown access name fails with `UnknownCapability`;
a missing `(user, access.id)` grant fails with `Forbidden`; when the
resolved access carries a required `permission_level`, a grant level that
does not meet it fails with `InsufficientLevel` (the spec leaves the
comparison policy-defined; lexicographic string order is used here, with
a level-less grant treated as not meeting any requirement). -/
def check_to_run (requesting_user : Option Nat) (access_name : String)
    (db : Database) : Except Error Unit :=
  match requesting_user with
  | none => .error (Error.new .Unauthenticated)
  | some uid =>
    match db.accesses.find? (fun a => a.access_name = access_name) with
    | none => .error (Error.new .UnknownCapability)
    | some access =>
      match db.user_access.find?
          (fun ua => ua.user_id = uid && ua.access_id = access.id) with
      | none => .error (Error.new .Forbidden)
      | some grant =>
        match access.permission_level with
        | none => .ok ()
        | some required =>
          match grant.permission_level with
          | some held =>
            if required ≤ held then .ok ()
            else .error (Error.new .InsufficientLevel)
          | none => .error (Error.new .InsufficientLevel)

/-- One observable step of a question handler against the store: the
permission-gate call, or a read or write of a table issued by the guarded
operation itself. -/
inductive DbEvent where
  | check (user : Option Nat) (access_name : String)
  | read (table : String)
  | write (table : String)
deriving DecidableEq, Repr

/-- Whether an event is the permission-gate call. -/
def DbEvent.isCheck : DbEvent → Bool
  | .check _ _ => true
  | _ => false

/-- `Question::read_all` (the `DbReadAll` default body): load the whole
`questions` table. -/
def question_read_all (db : Database) : List Question × List DbEvent :=
  (db.questions, [.read "questions"])

/-- `Question::read_single` (the `DbReadSingle` default body): load the
rows matching the primary key and `pop` the result vector, `NotFound`
when empty. -/
def question_read_single (id : Nat) (db : Database) :
    Except Error Question × List DbEvent :=
  match (db.questions.filter (fun q => q.id = id)).getLast? with
  | some q => (.ok q, [.read "questions"])
  | none => (.error (Error.new .NotFound), [.read "questions"])

/-- `tests::questions::requests::create_question`: insert (keyed by the
auto-increment counter), then re-read `LAST_INSERT_ID()` and `pop`. -/
def create_question (question : NewQuestion) (db : Database) :
    Except Error Question × Database × List DbEvent :=
  let inserted : Question :=
    { id := db.next_question_id
      category_id := question.category_id
      title := question.title
      correct_answer := question.correct_answer
      incorrect_answer_1 := question.incorrect_answer_1
      incorrect_answer_2 := question.incorrect_answer_2
      incorrect_answer_3 := question.incorrect_answer_3 }
  let db2 : Database :=
    { db with
      questions := db.questions ++ [inserted]
      next_question_id := db.next_question_id + 1 }
  match (db2.questions.filter
      (fun r => r.id = db.next_question_id)).getLast? with
  | some q => (.ok q, db2, [.write "questions", .read "questions"])
  | none =>
    (.error (Error.new .Database), db2, [.write "questions", .read "questions"])

/-- `tests::questions::requests::delete_question`: `DELETE ... WHERE
id = id`, always `Ok(())`. -/
def delete_question (id : Nat) (db : Database) :
    Database × List DbEvent :=
  ({ db with questions := db.questions.filter (fun q => ¬ q.id = id) },
    [.write "questions"])

/-- The inbound question operations
(`tests::questions::models::QuestionRequest`). -/
inductive QuestionRequest where
  | GetQuestions
  | GetQuestion (id : Nat)
  | CreateQuestion (question : NewQuestion)
  | DeleteQuestion (id : Nat)
deriving DecidableEq, Repr

/-- `tests::questions::models::QuestionResponse`. -/
inductive QuestionResponse where
  | OneQuestion (question : Question)
  | ManyQuestions (questions : List Question)
  | NoResponse
deriving DecidableEq, Repr

/-- `tests::questions::requests::handle_question`: every arm first runs
`check_to_run` with the arm's access-name literal and propagates its
error with `?` before touching the `questions` table.  The result is
paired with the final store and the ordered trace of observable steps. -/
def handle_question (request : QuestionRequest)
    (requested_user : Option Nat) (db : Database) :
    Except Error QuestionResponse × Database × List DbEvent :=
  match request with
  | .GetQuestions =>
    match check_to_run requested_user "GetQuestions" db with
    | .error e => (.error e, db, [.check requested_user "GetQuestions"])
    | .ok _ =>
      let (qs, evs) := question_read_all db
      (.ok (.ManyQuestions qs), db,
        .check requested_user "GetQuestions" :: evs)
  | .GetQuestion id =>
    match check_to_run requested_user "GetQuestions" db with
    | .error e => (.error e, db, [.check requested_user "GetQuestions"])
    | .ok _ =>
      let (r, evs) := question_read_single id db
      (r.map QuestionResponse.OneQuestion, db,
        .check requested_user "GetQuestions" :: evs)
  | .CreateQuestion question =>
    match check_to_run requested_user "CreateQuestions" db with
    | .error e => (.error e, db, [.check requested_user "CreateQuestions"])
    | .ok _ =>
      let (r, db2, evs) := create_question question db
      (r.map QuestionResponse.OneQuestion, db2,
        .check requested_user "CreateQuestions" :: evs)
  | .DeleteQuestion id =>
    match check_to_run requested_user "DeleteQuestions" db with
    | .error e => (.error e, db, [.check requested_user "DeleteQuestions"])
    | .ok _ =>
      let (db2, evs) := delete_question id db
      (.ok .NoResponse, db2,
        .check requested_user "DeleteQuestions" :: evs)

/-- The access-name literal each `handle_question` arm passes to
`check_to_run`. -/
def questionAccessName : QuestionRequest → String
  | .GetQuestions => "GetQuestions"
  | .GetQuestion _ => "GetQuestions"
  | .CreateQuestion _ => "CreateQuestions"
  | .DeleteQuestion _ => "DeleteQuestions"

/-- A filtered row count is non-zero exactly when a row satisfying the
predicate exists. -/
theorem filter_length_ne_zero_iff {α : Type} (p : α → Bool) (l : List α) :
    (l.filter p).length ≠ 0 ↔ ∃ a ∈ l, p a := by
  rw [Ne, List.length_eq_zero, List.filter_eq_nil_iff]
  push_neg
  simp

/-- Claim C1: for every access name and every database state, the
permission gate run with an absent requesting user fails with
`Unauthenticated`, and every `handle_question` arm then returns that
error with the store untouched and no table read or written. -/
theorem c1_absent_user_unauthenticated :
    ∀ (access_name : String) (db : Database),
      check_to_run none access_name db
        = .error (Error.new .Unauthenticated) ∧
      ∀ (req : QuestionRequest),
        handle_question req none db
          = (.error (Error.new .Unauthenticated), db,
              [.check none (questionAccessName req)]) := by
  intro access_name db
  refine ⟨rfl, ?_⟩
  intro req
  cases req <;> rfl

/-- Claim C7: compiling all-`NoSearch` criteria adds no filter: the users
search returns the whole `users` table and the grant search returns the
whole projected join, with no diagnostics. -/
theorem c7_all_nosearch_is_identity :
    ∀ db : Database,
      search_users
        { first_name := .NoSearch, last_name := .NoSearch
          banner_id := .NoSearch, email := .NoSearch } db
        = (.ok { users := db.users }, []) ∧
      search_user_access
        { access_id := .NoSearch, user_id := .NoSearch
          permission_level := .NoSearch } db
        = (.ok { entries := joinedUserAccessBase db }, []) := by
  intro db
  exact ⟨rfl, rfl⟩

/-- Claim C2: `check_user_access` answers `Ok(true)` exactly when a
`user_access` row with that `(user_id, access_id)` pair exists and
`Ok(false)` otherwise (so it never errors), and its verdict is invariant
under any change of the stored permission levels. -/
theorem c2_check_user_access_is_existence :
    ∀ (user_id access_id : Nat) (db : Database),
      (check_user_access user_id access_id db = .ok true ↔
        ∃ ua ∈ db.user_access,
          ua.user_id = user_id ∧ ua.access_id = access_id) ∧
      (check_user_access user_id access_id db = .ok true ∨
        check_user_access user_id access_id db = .ok false) ∧
      (∀ f : Option String → Option String,
        check_user_access user_id access_id
          { db with user_access := (db.user_access.map
              (fun ua => { ua with permission_level := f ua.permission_level })) }
          = check_user_access user_id access_id db) := by
  intro user_id access_id db
  refine ⟨?_, ?_, ?_⟩
  · simp only [check_user_access]
    by_cases h : (((db.user_access.filter (fun ua => ua.user_id = user_id)).filter
        (fun ua => ua.access_id = access_id)).length ≠ 0)
    · rw [if_pos h]
      rw [filter_length_ne_zero_iff] at h
      simp only [List.mem_filter, decide_eq_true_eq] at h
      constructor
      · intro _
        tauto
      · intro _
        rfl
    · rw [if_neg h]
      rw [filter_length_ne_zero_iff] at h
      simp only [List.mem_filter, decide_eq_true_eq] at h
      push_neg at h
      constructor
      · intro hc
        simp at hc
      · rintro ⟨ua, hm, h1, h2⟩
        exact absurd h2 (h ua ⟨hm, h1⟩)
  · simp only [check_user_access]
    by_cases h : (((db.user_access.filter (fun ua => ua.user_id = user_id)).filter
        (fun ua => ua.access_id = access_id)).length ≠ 0)
    · exact Or.inl (by rw [if_pos h])
    · exact Or.inr (by rw [if_neg h])
  · intro f
    simp only [check_user_access, List.filter_map, Function.comp_def,
      List.length_map]

/-- Claim C5: deleting a grant id always succeeds, removes exactly the
rows with that `permission_id` (all other rows and tables untouched), is
a no-op when no such row exists, and is idempotent. -/
theorem c5_delete_user_access_idempotent :
    ∀ (id : Nat) (db : Database),
      (delete_user_access id db).1 = .ok () ∧
      (delete_user_access id db).2 =
        { db with user_access :=
            db.user_access.filter (fun r => ¬ r.permission_id = id) } ∧
      ((∀ r ∈ db.user_access, r.permission_id ≠ id) →
        (delete_user_access id db).2 = db) ∧
      delete_user_access id (delete_user_access id db).2
        = delete_user_access id db := by
  intro id db
  refine ⟨rfl, rfl, ?_, ?_⟩
  · intro h
    rw [delete_user_access]
    have : db.user_access.filter (fun r => ¬ r.permission_id = id)
        = db.user_access := by
      rw [List.filter_eq_self]
      intro a ha
      simpa using h a ha
    rw [this]
  · rw [delete_user_access, delete_user_access]
    simp [List.filter_filter]

/-- Witness for C5 at a store holding one unrelated grant. -/
theorem c5_delete_user_access_idempotent_witness :
    (delete_user_access 1
      { users := [], accesses := [],
        user_access := [{ permission_id := 2, user_id := 3, access_id := 4,
                          permission_level := none }],
        questions := [], next_permission_id := 5, next_question_id := 1 }).2
      = { users := [], accesses := [],
          user_access := [{ permission_id := 2, user_id := 3, access_id := 4,
                            permission_level := none }],
          questions := [], next_permission_id := 5, next_question_id := 1 } :=
  (c5_delete_user_access_idempotent 1 _).2.2.1 (by decide)

/-- Mapping a function that fixes every element of a list is the
identity. -/
theorem map_eq_self_of_fixed {α : Type} (f : α → α) (l : List α)
    (h : ∀ a ∈ l, f a = a) : l.map f = l := by
  induction l with
  | nil => rfl
  | cons a l ih =>
    simp only [List.map_cons, h a (List.mem_cons_self a l)]
    rw [ih (fun b hb => h b (List.mem_cons_of_mem a hb))]

/-- Claim C10: the three `UPDATE`-by-id operations always return `Ok(())`,
and when no row carries the targeted id the store is left unchanged (the
miss is never reported, in particular never as `NotFound`). -/
theorem c10_update_missing_id_is_silent_noop :
    ∀ (id : Nat) (pa : PartialAccess) (pua : PartialUserAccess)
      (pu : PartialUser) (db : Database),
      (update_access id pa db).1 = .ok () ∧
      (update_user_access id pua db).1 = .ok () ∧
      (update_user id pu db).1 = .ok () ∧
      ((∀ a ∈ db.accesses, a.id ≠ id) → (update_access id pa db).2 = db) ∧
      ((∀ r ∈ db.user_access, r.permission_id ≠ id) →
        (update_user_access id pua db).2 = db) ∧
      ((∀ u ∈ db.users, u.id ≠ id) → (update_user id pu db).2 = db) := by
  intro id pa pua pu db
  refine ⟨rfl, rfl, rfl, ?_, ?_, ?_⟩
  · intro h
    simp only [update_access]
    rw [map_eq_self_of_fixed _ _ (fun a ha => by rw [if_neg (h a ha)])]
  · intro h
    simp only [update_user_access]
    rw [map_eq_self_of_fixed _ _ (fun r hr => by rw [if_neg (h r hr)])]
  · intro h
    simp only [update_user]
    rw [map_eq_self_of_fixed _ _ (fun u hu => by rw [if_neg (h u hu)])]

/-- Witness for C10 at a store holding one row per table, none with the
targeted id. -/
theorem c10_update_missing_id_is_silent_noop_witness :
    (update_access 9
      { access_name := some "X", permission_level := none }
      { users := [{ id := 1, first_name := "A", last_name := "B",
                    banner_id := 7, email := none }],
        accesses := [{ id := 2, access_name := "GetQuestions",
                       permission_level := none }],
        user_access := [{ permission_id := 3, user_id := 1, access_id := 2,
                          permission_level := none }],
        questions := [], next_permission_id := 4,
        next_question_id := 1 }).2
      = { users := [{ id := 1, first_name := "A", last_name := "B",
                      banner_id := 7, email := none }],
          accesses := [{ id := 2, access_name := "GetQuestions",
                         permission_level := none }],
          user_access := [{ permission_id := 3, user_id := 1, access_id := 2,
                            permission_level := none }],
          questions := [], next_permission_id := 4,
          next_question_id := 1 } ∧
    (update_user_access 9
      { user_id := none, access_id := none, permission_level := none }
      { users := [], accesses := [],
        user_access := [{ permission_id := 3, user_id := 1, access_id := 2,
                          permission_level := none }],
        questions := [], next_permission_id := 4,
        next_question_id := 1 }).2
      = { users := [], accesses := [],
          user_access := [{ permission_id := 3, user_id := 1, access_id := 2,
                            permission_level := none }],
          questions := [], next_permission_id := 4,
          next_question_id := 1 } ∧
    (update_user 9
      { first_name := none, last_name := none, banner_id := none,
        email := none }
      { users := [{ id := 1, first_name := "A", last_name := "B",
                    banner_id := 7, email := none }],
        accesses := [], user_access := [], questions := [],
        next_permission_id := 1, next_question_id := 1 }).2
      = { users := [{ id := 1, first_name := "A", last_name := "B",
                      banner_id := 7, email := none }],
          accesses := [], user_access := [], questions := [],
          next_permission_id := 1, next_question_id := 1 } :=
  ⟨(c10_update_missing_id_is_silent_noop 9
      { access_name := some "X", permission_level := none }
      { user_id := none, access_id := none, permission_level := none }
      { first_name := none, last_name := none, banner_id := none,
        email := none } _).2.2.2.1 (by decide),
   (c10_update_missing_id_is_silent_noop 9
      { access_name := none, permission_level := none }
      { user_id := none, access_id := none, permission_level := none }
      { first_name := none, last_name := none, banner_id := none,
        email := none } _).2.2.2.2.1 (by decide),
   (c10_update_missing_id_is_silent_noop 9
      { access_name := none, permission_level := none }
      { user_id := none, access_id := none, permission_level := none }
      { first_name := none, last_name := none, banner_id := none,
        email := none } _).2.2.2.2.2 (by decide)⟩

/-- Claim C3: creating a grant whose `(user_id, access_id)` pair already
has a row fails with `ErrorKind::Database` and leaves the store (the
pre-existing grant included) untouched; otherwise exactly one row is
appended and returned, carrying the generated `permission_id`. -/
theorem c3_create_user_access_duplicate_guard :
    ∀ (nua : NewUserAccess) (db : Database),
      ((∃ r ∈ db.user_access,
          r.user_id = nua.user_id ∧ r.access_id = nua.access_id) →
        create_user_access nua db = (.error (Error.new .Database), db)) ∧
      ((∀ r ∈ db.user_access,
          ¬(r.user_id = nua.user_id ∧ r.access_id = nua.access_id)) →
        ∃ inserted : UserAccess,
          create_user_access nua db =
            (.ok inserted,
              { db with
                user_access := db.user_access ++ [inserted]
                next_permission_id := db.next_permission_id + 1 }) ∧
          inserted.permission_id = db.next_permission_id ∧
          inserted.user_id = nua.user_id ∧
          inserted.access_id = nua.access_id ∧
          inserted.permission_level = nua.permission_level) := by
  intro nua db
  constructor
  · intro h
    have hne : (((db.user_access.filter
        (fun r => r.user_id = nua.user_id)).filter
        (fun r => r.access_id = nua.access_id)).length ≠ 0) := by
      rw [filter_length_ne_zero_iff]
      obtain ⟨r, hm, h1, h2⟩ := h
      exact ⟨r, List.mem_filter.mpr ⟨hm, by simp [h1]⟩, by simp [h2]⟩
    simp only [create_user_access]
    rw [if_pos hne]
  · intro h
    have hz : (((db.user_access.filter
        (fun r => r.user_id = nua.user_id)).filter
        (fun r => r.access_id = nua.access_id)).length = 0) := by
      by_contra hne
      have hne2 : (((db.user_access.filter
          (fun r => r.user_id = nua.user_id)).filter
          (fun r => r.access_id = nua.access_id)).length ≠ 0) := hne
      rw [filter_length_ne_zero_iff] at hne2
      obtain ⟨r, hm, h2⟩ := hne2
      rw [List.mem_filter] at hm
      exact h r hm.1 ⟨by simpa using hm.2, by simpa using h2⟩
    refine ⟨{ permission_id := db.next_permission_id
              user_id := nua.user_id
              access_id := nua.access_id
              permission_level := nua.permission_level }, ?_, rfl, rfl, rfl, rfl⟩
    simp only [create_user_access]
    rw [if_neg (fun hc => hc hz)]
    rw [List.filter_append]
    simp

/-- Witness for C3: a duplicate insert at a one-grant store, and a fresh
insert at an empty store. -/
theorem c3_create_user_access_duplicate_guard_witness :
    create_user_access
      { user_id := 1, access_id := 2, permission_level := none }
      { users := [], accesses := [],
        user_access := [{ permission_id := 3, user_id := 1, access_id := 2,
                          permission_level := none }],
        questions := [], next_permission_id := 4, next_question_id := 1 }
      = (.error (Error.new .Database),
          { users := [], accesses := [],
            user_access := [{ permission_id := 3, user_id := 1,
                              access_id := 2, permission_level := none }],
            questions := [], next_permission_id := 4,
            next_question_id := 1 }) ∧
    ∃ inserted : UserAccess,
      create_user_access
        { user_id := 1, access_id := 2, permission_level := none }
        { users := [], accesses := [], user_access := [], questions := [],
          next_permission_id := 4, next_question_id := 1 }
        = (.ok inserted,
            { users := [], accesses := [],
              user_access := [inserted], questions := [],
              next_permission_id := 5, next_question_id := 1 }) ∧
      inserted.permission_id = 4 ∧ inserted.user_id = 1 ∧
      inserted.access_id = 2 ∧ inserted.permission_level = none :=
  ⟨(c3_create_user_access_duplicate_guard
      { user_id := 1, access_id := 2, permission_level := none } _).1
      ⟨{ permission_id := 3, user_id := 1, access_id := 2,
         permission_level := none }, by decide, by decide, by decide⟩,
   (c3_create_user_access_duplicate_guard
      { user_id := 1, access_id := 2, permission_level := none } _).2
      (by decide)⟩

/-- Claim C4: in every `handle_question` arm the trace opens with the
permission-gate call, that call is the only gate call in the trace (so
every table read or write comes after it), and when the gate errors the
arm returns that error with the store untouched and an otherwise empty
trace. -/
theorem c4_gate_runs_first_and_alone :
    ∀ (req : QuestionRequest) (user : Option Nat) (db : Database),
      (handle_question req user db).2.2.head?
        = some (.check user (questionAccessName req)) ∧
      ((handle_question req user db).2.2.filter DbEvent.isCheck).length
        = 1 ∧
      ∀ e : Error,
        check_to_run user (questionAccessName req) db = .error e →
        handle_question req user db
          = (.error e, db, [.check user (questionAccessName req)]) := by
  intro req user db
  refine ⟨?_, ?_, ?_⟩
  · cases req <;>
      simp only [handle_question, questionAccessName, question_read_all,
        question_read_single, create_question, delete_question] <;>
      split <;>
      simp
  · cases req <;>
      simp only [handle_question, questionAccessName, question_read_all,
        question_read_single, create_question, delete_question] <;>
      split <;>
      first
        | rfl
        | (split <;> rfl)
  · intro e he
    cases req <;>
      simp only [questionAccessName] at he <;>
      simp only [handle_question, questionAccessName] <;>
      rw [he]

/-- Witness for C4: an unauthenticated `GetQuestions` against the empty
store is refused at the gate with nothing read and nothing changed. -/
theorem c4_gate_runs_first_and_alone_witness :
    (handle_question .GetQuestions none
        { users := [], accesses := [], user_access := [], questions := [],
          next_permission_id := 1, next_question_id := 1 }).2.2.head?
      = some (.check none "GetQuestions") ∧
    handle_question .GetQuestions none
        { users := [], accesses := [], user_access := [], questions := [],
          next_permission_id := 1, next_question_id := 1 }
      = (.error (Error.new .Unauthenticated),
          { users := [], accesses := [], user_access := [], questions := [],
            next_permission_id := 1, next_question_id := 1 },
          [.check none "GetQuestions"]) :=
  ⟨(c4_gate_runs_first_and_alone .GetQuestions none _).1,
   (c4_gate_runs_first_and_alone .GetQuestions none _).2.2
     (Error.new .Unauthenticated) rfl⟩

/-- Counterexample to claim C6 as stated: a criteria record with
`Partial(5)` on the numeric `access_id` field of `search_user_access`
does substitute the equality predicate (the matching joined row is
returned) but emits no warning diagnostic — the diagnostics list is
empty, where the claim requires a warning for every numeric partial
term. -/
theorem c6_counterexample_user_access_partial_warns_nothing :
    search_user_access
      { access_id := .Partial 5, user_id := .NoSearch,
        permission_level := .NoSearch }
      { users := [{ id := 1, first_name := "Anna", last_name := "B",
                    banner_id := 1001, email := none }],
        accesses := [{ id := 5, access_name := "GetQuestions",
                       permission_level := none }],
        user_access := [{ permission_id := 10, user_id := 1, access_id := 5,
                          permission_level := none }],
        questions := [], next_permission_id := 11, next_question_id := 1 }
      = (.ok { entries := [{ permission_id := 10, user_id := 1,
                             access_id := 5, first_name := "Anna",
                             last_name := "B", banner_id := 1001 }] },
          []) := by
  rfl

/-- Claim C6 (amended): a `Partial(v)` term on a numeric field always
compiles to the equality predicate on `v` and never to an error, but the
warning diagnostic is emitted only by `search_users` for `banner_id`;
the `access_id` and `user_id` substitutions in `search_user_access` are
silent. -/
theorem c6_amended_numeric_partial_degrades_to_exact :
    ∀ (v : Nat) (fn ln : Search String) (em : NullableSearch String)
      (ai ui : Search Nat) (pl : NullableSearch String) (db : Database),
      (search_users { first_name := fn, last_name := ln,
                      banner_id := .Partial v, email := em } db).1
        = (search_users { first_name := fn, last_name := ln,
                          banner_id := .Exact v, email := em } db).1 ∧
      (search_users { first_name := fn, last_name := ln,
                      banner_id := .Partial v, email := em } db).2
        = [bannerIdPartialWarning] ∧
      (∃ ul, (search_users { first_name := fn, last_name := ln,
                             banner_id := .Partial v, email := em } db).1
              = .ok ul) ∧
      search_user_access { access_id := .Partial v, user_id := ui,
                           permission_level := pl } db
        = ((search_user_access { access_id := .Exact v, user_id := ui,
                                 permission_level := pl } db).1, []) ∧
      search_user_access { access_id := ai, user_id := .Partial v,
                           permission_level := pl } db
        = ((search_user_access { access_id := ai, user_id := .Exact v,
                                 permission_level := pl } db).1, []) := by
  intro v fn ln em ai ui pl db
  exact ⟨rfl, rfl, ⟨_, rfl⟩, rfl, rfl⟩

/-- A successful `Search::from_query` never yields `NoSearch`. -/
theorem searchFromQuery_ne_nosearch :
    ∀ (α : Type) (parseT : String → Option α) (raw : String) (t : Search α),
      searchFromQuery parseT raw = .ok t → t ≠ .NoSearch := by
  intro α parseT raw t h hns
  subst hns
  simp only [searchFromQuery] at h
  split_ifs at h
  · split at h <;> cases h
  · split at h <;> cases h

/-- A successful `NullableSearch::from_query` never yields `NoSearch`. -/
theorem nullableSearchFromQuery_ne_nosearch :
    ∀ (α : Type) (parseT : String → Option α) (raw : String)
      (t : NullableSearch α),
      nullableSearchFromQuery parseT raw = .ok t → t ≠ .NoSearch := by
  intro α parseT raw t h hns
  subst hns
  simp only [nullableSearchFromQuery] at h
  split_ifs at h
  · split at h <;> cases h
  · split at h <;> cases h
  · cases h
  · cases h

/-- The parse loop leaves `first_name` at its accumulator value when no
query entry names it. -/
theorem parseSearchUserLoop_keeps_first_name :
    ∀ (q : List (String × String)) (acc su : SearchUser),
      parseSearchUserLoop q acc = .ok su →
      (∀ p ∈ q, p.1 ≠ "first_name") → su.first_name = acc.first_name := by
  intro q
  induction q with
  | nil =>
    intro acc su h _
    cases h
    rfl
  | cons p rest ih =>
    intro acc su h habs
    rcases p with ⟨field, qv⟩
    have habs2 : ∀ p ∈ rest, p.1 ≠ "first_name" :=
      fun p hp => habs p (List.mem_cons_of_mem _ hp)
    simp only [parseSearchUserLoop] at h
    split_ifs at h with hf1 hf2 hf3 hf4
    · exact absurd hf1
        (habs (field, qv) (List.mem_cons_self _ _))
    · split at h
      · have hh := ih _ _ h habs2
        exact hh
      · cases h
    · split at h
      · have hh := ih _ _ h habs2
        exact hh
      · cases h
    · split at h
      · have hh := ih _ _ h habs2
        exact hh
      · cases h

/-- The parse loop leaves `last_name` at its accumulator value when no
query entry names it. -/
theorem parseSearchUserLoop_keeps_last_name :
    ∀ (q : List (String × String)) (acc su : SearchUser),
      parseSearchUserLoop q acc = .ok su →
      (∀ p ∈ q, p.1 ≠ "last_name") → su.last_name = acc.last_name := by
  intro q
  induction q with
  | nil =>
    intro acc su h _
    cases h
    rfl
  | cons p rest ih =>
    intro acc su h habs
    rcases p with ⟨field, qv⟩
    have habs2 : ∀ p ∈ rest, p.1 ≠ "last_name" :=
      fun p hp => habs p (List.mem_cons_of_mem _ hp)
    simp only [parseSearchUserLoop] at h
    split_ifs at h with hf1 hf2 hf3 hf4
    · split at h
      · have hh := ih _ _ h habs2
        exact hh
      · cases h
    · exact absurd hf2
        (habs (field, qv) (List.mem_cons_self _ _))
    · split at h
      · have hh := ih _ _ h habs2
        exact hh
      · cases h
    · split at h
      · have hh := ih _ _ h habs2
        exact hh
      · cases h

/-- The parse loop leaves `banner_id` at its accumulator value when no
query entry names it. -/
theorem parseSearchUserLoop_keeps_banner_id :
    ∀ (q : List (String × String)) (acc su : SearchUser),
      parseSearchUserLoop q acc = .ok su →
      (∀ p ∈ q, p.1 ≠ "banner_id") → su.banner_id = acc.banner_id := by
  intro q
  induction q with
  | nil =>
    intro acc su h _
    cases h
    rfl
  | cons p rest ih =>
    intro acc su h habs
    rcases p with ⟨field, qv⟩
    have habs2 : ∀ p ∈ rest, p.1 ≠ "banner_id" :=
      fun p hp => habs p (List.mem_cons_of_mem _ hp)
    simp only [parseSearchUserLoop] at h
    split_ifs at h with hf1 hf2 hf3 hf4
    · split at h
      · have hh := ih _ _ h habs2
        exact hh
      · cases h
    · split at h
      · have hh := ih _ _ h habs2
        exact hh
      · cases h
    · exact absurd hf3
        (habs (field, qv) (List.mem_cons_self _ _))
    · split at h
      · have hh := ih _ _ h habs2
        exact hh
      · cases h

/-- The parse loop leaves `email` at its accumulator value when no query
entry names it. -/
theorem parseSearchUserLoop_keeps_email :
    ∀ (q : List (String × String)) (acc su : SearchUser),
      parseSearchUserLoop q acc = .ok su →
      (∀ p ∈ q, p.1 ≠ "email") → su.email = acc.email := by
  intro q
  induction q with
  | nil =>
    intro acc su h _
    cases h
    rfl
  | cons p rest ih =>
    intro acc su h habs
    rcases p with ⟨field, qv⟩
    have habs2 : ∀ p ∈ rest, p.1 ≠ "email" :=
      fun p hp => habs p (List.mem_cons_of_mem _ hp)
    simp only [parseSearchUserLoop] at h
    split_ifs at h with hf1 hf2 hf3 hf4
    · split at h
      · have hh := ih _ _ h habs2
        exact hh
      · cases h
    · split at h
      · have hh := ih _ _ h habs2
        exact hh
      · cases h
    · split at h
      · have hh := ih _ _ h habs2
        exact hh
      · cases h
    · exact absurd hf4
        (habs (field, qv) (List.mem_cons_self _ _))

/-- Claim C8: a recognized field absent from the query set parses to
`NoSearch` whatever the other entries hold, and parsing supplied query
text never produces `NoSearch`. -/
theorem c8_absent_field_parses_to_nosearch :
    ∀ (query : List (String × String)) (su : SearchUser),
      parseSearchUser query = .ok su →
      ((∀ p ∈ query, p.1 ≠ "first_name") → su.first_name = .NoSearch) ∧
      ((∀ p ∈ query, p.1 ≠ "last_name") → su.last_name = .NoSearch) ∧
      ((∀ p ∈ query, p.1 ≠ "banner_id") → su.banner_id = .NoSearch) ∧
      ((∀ p ∈ query, p.1 ≠ "email") → su.email = .NoSearch) ∧
      (∀ (α : Type) (parseT : String → Option α) (raw : String)
          (t : Search α),
        searchFromQuery parseT raw = .ok t → t ≠ .NoSearch) ∧
      (∀ (α : Type) (parseT : String → Option α) (raw : String)
          (t : NullableSearch α),
        nullableSearchFromQuery parseT raw = .ok t → t ≠ .NoSearch) := by
  intro query su h
  exact ⟨parseSearchUserLoop_keeps_first_name query _ su h,
    parseSearchUserLoop_keeps_last_name query _ su h,
    parseSearchUserLoop_keeps_banner_id query _ su h,
    parseSearchUserLoop_keeps_email query _ su h,
    searchFromQuery_ne_nosearch,
    nullableSearchFromQuery_ne_nosearch⟩

/-- Witness for C8: a query set naming only `last_name` leaves the three
other fields at `NoSearch`. -/
theorem c8_absent_field_parses_to_nosearch_witness :
    parseSearchUser [("last_name", "exact:Smith")]
      = .ok { first_name := .NoSearch, last_name := .Exact "Smith",
              banner_id := .NoSearch, email := .NoSearch } ∧
    ({ first_name := .NoSearch, last_name := .Exact "Smith",
       banner_id := .NoSearch, email := .NoSearch } : SearchUser).first_name
      = .NoSearch ∧
    ({ first_name := .NoSearch, last_name := .Exact "Smith",
       banner_id := .NoSearch, email := .NoSearch } : SearchUser).banner_id
      = .NoSearch ∧
    ({ first_name := .NoSearch, last_name := .Exact "Smith",
       banner_id := .NoSearch, email := .NoSearch } : SearchUser).email
      = .NoSearch :=
  have hp : parseSearchUser [("last_name", "exact:Smith")]
      = .ok { first_name := .NoSearch, last_name := .Exact "Smith",
              banner_id := .NoSearch, email := .NoSearch } := by rfl
  ⟨hp,
   (c8_absent_field_parses_to_nosearch _ _ hp).1 (by decide),
   (c8_absent_field_parses_to_nosearch _ _ hp).2.2.1 (by decide),
   (c8_absent_field_parses_to_nosearch _ _ hp).2.2.2.1 (by decide)⟩

/-- Every failure of `Search::from_query` carries `ErrorKind::Url`. -/
theorem searchFromQuery_error_is_url :
    ∀ (α : Type) (parseT : String → Option α) (raw : String) (e : Error),
      searchFromQuery parseT raw = .error e → e = Error.new .Url := by
  intro α parseT raw e h
  simp only [searchFromQuery] at h
  split_ifs at h <;>
    first
      | (split at h
         · cases h
         · cases h
           rfl)
      | (cases h
         rfl)

/-- Every failure of `NullableSearch::from_query` carries
`ErrorKind::Url`. -/
theorem nullableSearchFromQuery_error_is_url :
    ∀ (α : Type) (parseT : String → Option α) (raw : String) (e : Error),
      nullableSearchFromQuery parseT raw = .error e → e = Error.new .Url := by
  intro α parseT raw e h
  simp only [nullableSearchFromQuery] at h
  split_ifs at h <;>
    first
      | (split at h
         · cases h
         · cases h
           rfl)
      | (cases h
         rfl)

/-- Every failure of the query-parameter loop carries `ErrorKind::Url`. -/
theorem parseSearchUserLoop_error_is_url :
    ∀ (q : List (String × String)) (acc : SearchUser) (e : Error),
      parseSearchUserLoop q acc = .error e → e = Error.new .Url := by
  intro q
  induction q with
  | nil =>
    intro acc e h
    cases h
  | cons p rest ih =>
    intro acc e h
    rcases p with ⟨field, qv⟩
    simp only [parseSearchUserLoop] at h
    split_ifs at h
    · split at h
      · exact ih _ _ h
      · cases h
        exact searchFromQuery_error_is_url _ _ _ _ (by assumption)
    · split at h
      · exact ih _ _ h
      · cases h
        exact searchFromQuery_error_is_url _ _ _ _ (by assumption)
    · split at h
      · exact ih _ _ h
      · cases h
        exact searchFromQuery_error_is_url _ _ _ _ (by assumption)
    · split at h
      · exact ih _ _ h
      · cases h
        exact nullableSearchFromQuery_error_is_url _ _ _ _ (by assumption)
    · cases h
      rfl

/-- A query set holding an unrecognized field name always makes the loop
fail. -/
theorem parseSearchUserLoop_unrecognized_fails :
    ∀ (q : List (String × String)) (acc : SearchUser),
      (∃ p ∈ q, p.1 ≠ "first_name" ∧ p.1 ≠ "last_name" ∧
        p.1 ≠ "banner_id" ∧ p.1 ≠ "email") →
      ∃ e, parseSearchUserLoop q acc = .error e := by
  intro q
  induction q with
  | nil =>
    intro acc hex
    obtain ⟨p, hp, _⟩ := hex
    cases hp
  | cons p rest ih =>
    intro acc hex
    rcases p with ⟨field, qv⟩
    simp only [parseSearchUserLoop]
    split_ifs with hf1 hf2 hf3 hf4
    · cases hfq : searchFromQuery parseString qv with
      | ok t =>
        refine ih _ ?_
        obtain ⟨p2, hp2, hr⟩ := hex
        rcases List.mem_cons.mp hp2 with heq | hm
        · exact absurd hf1 (by rw [heq] at hr; exact hr.1)
        · exact ⟨p2, hm, hr⟩
      | error e => exact ⟨e, rfl⟩
    · cases hfq : searchFromQuery parseString qv with
      | ok t =>
        refine ih _ ?_
        obtain ⟨p2, hp2, hr⟩ := hex
        rcases List.mem_cons.mp hp2 with heq | hm
        · exact absurd hf2 (by rw [heq] at hr; exact hr.2.1)
        · exact ⟨p2, hm, hr⟩
      | error e => exact ⟨e, rfl⟩
    · cases hfq : searchFromQuery parseU32 qv with
      | ok t =>
        refine ih _ ?_
        obtain ⟨p2, hp2, hr⟩ := hex
        rcases List.mem_cons.mp hp2 with heq | hm
        · exact absurd hf3 (by rw [heq] at hr; exact hr.2.2.1)
        · exact ⟨p2, hm, hr⟩
      | error e => exact ⟨e, rfl⟩
    · cases hfq : nullableSearchFromQuery parseString qv with
      | ok t =>
        refine ih _ ?_
        obtain ⟨p2, hp2, hr⟩ := hex
        rcases List.mem_cons.mp hp2 with heq | hm
        · exact absurd hf4 (by rw [heq] at hr; exact hr.2.2.2)
        · exact ⟨p2, hm, hr⟩
      | error e => exact ⟨e, rfl⟩
    · exact ⟨Error.new .Url, rfl⟩

/-- Claim C9: whenever a query set names a field outside the four
recognized ones, the users-search handler fails with `ErrorKind::Url`, no
search runs and no diagnostics are produced. -/
theorem c9_unrecognized_field_fails_with_url :
    ∀ (query : List (String × String)) (db : Database),
      (∃ p ∈ query, p.1 ≠ "first_name" ∧ p.1 ≠ "last_name" ∧
        p.1 ≠ "banner_id" ∧ p.1 ≠ "email") →
      handle_user_search query db = (.error (Error.new .Url), []) := by
  intro query db hex
  obtain ⟨e, he⟩ :=
    parseSearchUserLoop_unrecognized_fails query
      { first_name := .NoSearch, last_name := .NoSearch
        banner_id := .NoSearch, email := .NoSearch } hex
  have hu := parseSearchUserLoop_error_is_url query _ e he
  subst hu
  simp only [handle_user_search, parseSearchUser]
  rw [he]

/-- Witness for C9: the single-entry query set naming `foo` fails with
`Url` against the empty store. -/
theorem c9_unrecognized_field_fails_with_url_witness :
    handle_user_search [("foo", "exact:1")]
      { users := [], accesses := [], user_access := [], questions := [],
        next_permission_id := 1, next_question_id := 1 }
      = (.error (Error.new .Url), []) :=
  c9_unrecognized_field_fails_with_url [("foo", "exact:1")] _
    ⟨("foo", "exact:1"), List.mem_cons_self _ _, by decide⟩

end ResourceBackend
